import Mathlib

/-!
Verification of the self-healing orchestration fabric of the invoice
telegram bot.  Each component relevant to the checked properties is given a
shallow embedding: Python dataclasses become structures, methods become pure
functions, wall-clock time becomes an explicit rational parameter `now`,
callable collaborators (handlers, fallbacks, custom classifiers) become
explicit outcome parameters, and raised exceptions become `Except` values.
Fields that no checked property reads (payload maps, history logs, string
timestamps inside stats) are left out of the structures; every field that a
property reads is carried.
-/

/-! ## Circuit breaker (src/circuit_breaker.py) -/

/-- States of the circuit breaker; `opened` embeds the source's `OPEN`. -/
inductive CircuitState where
  | closed
  | opened
  | halfOpen
deriving DecidableEq

/-- Configuration of a circuit breaker (`CircuitBreakerConfig`). -/
structure CircuitBreakerConfig where
  failure_threshold : Nat := 5
  recovery_timeout : Rat := 30
  half_open_max_calls : Nat := 3
  success_threshold : Nat := 2
deriving DecidableEq

/-- Counters of `CircuitBreakerStats` that the checked properties read. -/
structure CircuitBreakerStats where
  state_changes : Nat := 0
  failures : Nat := 0
  successes : Nat := 0
  rejected : Nat := 0
  consecutive_successes : Nat := 0
  consecutive_failures : Nat := 0
deriving DecidableEq

/-- Mutable state of a `CircuitBreaker` instance.  `opened_at` is the
`time.time()` value recorded when the breaker opened. -/
structure CircuitBreaker where
  state : CircuitState := CircuitState.closed
  stats : CircuitBreakerStats := {}
  half_open_calls : Nat := 0
  opened_at : Option Rat := none
deriving DecidableEq

/-- Embeds `CircuitBreaker.can_execute`.  Returns the permission bit together
with the updated breaker.  The source guard `if self._opened_at and ...`
tests Python truthiness, so `opened_at` equal to `0.0` behaves like `None`;
this is kept as the `getD 0 ≠ 0` conjunct. -/
def CircuitBreaker.can_execute (cfg : CircuitBreakerConfig) (cb : CircuitBreaker)
    (now : Rat) : Bool × CircuitBreaker :=
  match cb.state with
  | CircuitState.closed => (true, cb)
  | CircuitState.opened =>
      if cb.opened_at.getD 0 ≠ 0 ∧ cfg.recovery_timeout ≤ now - cb.opened_at.getD 0 then
        (true, { cb with
                   state := CircuitState.halfOpen,
                   half_open_calls := 0,
                   stats := { cb.stats with consecutive_successes := 0 } })
      else
        (false, { cb with stats := { cb.stats with rejected := cb.stats.rejected + 1 } })
  | CircuitState.halfOpen =>
      if cb.half_open_calls < cfg.half_open_max_calls then
        (true, { cb with half_open_calls := cb.half_open_calls + 1 })
      else
        (false, { cb with stats := { cb.stats with rejected := cb.stats.rejected + 1 } })

/-- Embeds `CircuitBreaker.record_failure`; `now` is the `time.time()` value
stored into `_opened_at` on a transition to OPEN. -/
def CircuitBreaker.record_failure (cfg : CircuitBreakerConfig) (cb : CircuitBreaker)
    (now : Rat) : CircuitBreaker :=
  let stats := { cb.stats with
                   failures := cb.stats.failures + 1,
                   consecutive_failures := cb.stats.consecutive_failures + 1,
                   consecutive_successes := 0 }
  match cb.state with
  | CircuitState.closed =>
      if cfg.failure_threshold ≤ stats.consecutive_failures then
        { cb with
            state := CircuitState.opened,
            opened_at := some now,
            stats := { stats with state_changes := stats.state_changes + 1 } }
      else
        { cb with stats := stats }
  | CircuitState.halfOpen =>
      { cb with
          state := CircuitState.opened,
          opened_at := some now,
          stats := { stats with state_changes := stats.state_changes + 1 } }
  | CircuitState.opened =>
      { cb with stats := stats }

/-- Embeds `CircuitBreaker.record_success`. -/
def CircuitBreaker.record_success (cfg : CircuitBreakerConfig) (cb : CircuitBreaker) :
    CircuitBreaker :=
  let stats := { cb.stats with
                   successes := cb.stats.successes + 1,
                   consecutive_successes := cb.stats.consecutive_successes + 1,
                   consecutive_failures := 0 }
  match cb.state with
  | CircuitState.halfOpen =>
      if cfg.success_threshold ≤ stats.consecutive_successes then
        { cb with
            state := CircuitState.closed,
            opened_at := none,
            stats := { stats with state_changes := stats.state_changes + 1 } }
      else
        { cb with stats := stats }
  | _ => { cb with stats := stats }

/-- A sequence of `record_failure` calls, one at each listed time. -/
def CircuitBreaker.record_failures (cfg : CircuitBreakerConfig) (cb : CircuitBreaker) :
    List Rat → CircuitBreaker
  | [] => cb
  | t :: ts => CircuitBreaker.record_failures cfg (CircuitBreaker.record_failure cfg cb t) ts

/-- A sequence of `can_execute` calls, one at each listed time; returns the
number of permitted calls together with the final breaker. -/
def CircuitBreaker.can_execute_seq (cfg : CircuitBreakerConfig) (cb : CircuitBreaker) :
    List Rat → Nat × CircuitBreaker
  | [] => (0, cb)
  | t :: ts =>
      let step := CircuitBreaker.can_execute cfg cb t
      let rest := CircuitBreaker.can_execute_seq cfg step.2 ts
      ((if step.1 then 1 else 0) + rest.1, rest.2)

/-- Helper: recording further failures on an already-open breaker keeps it
open and does not move the opening time. -/
theorem CircuitBreaker.record_failures_of_opened (cfg : CircuitBreakerConfig) :
    ∀ (ts : List Rat) (cb : CircuitBreaker), cb.state = CircuitState.opened →
    (CircuitBreaker.record_failures cfg cb ts).state = CircuitState.opened ∧
    (CircuitBreaker.record_failures cfg cb ts).opened_at = cb.opened_at := by
  intro ts
  induction ts with
  | nil => intro cb h; exact ⟨h, rfl⟩
  | cons t ts ih =>
      intro cb h
      have h1 : (CircuitBreaker.record_failure cfg cb t).state = CircuitState.opened ∧
          (CircuitBreaker.record_failure cfg cb t).opened_at = cb.opened_at := by
        simp [CircuitBreaker.record_failure, h]
      have h2 := ih _ h1.1
      simp only [CircuitBreaker.record_failures]
      exact ⟨h2.1, h2.2.trans h1.2⟩

/-- Helper: from CLOSED, a run of failures long enough to reach the failure
threshold opens the breaker, and the recorded opening time is one of the
failure times. -/
theorem CircuitBreaker.record_failures_open (cfg : CircuitBreakerConfig) :
    ∀ (ts : List Rat) (cb : CircuitBreaker),
    cb.state = CircuitState.closed →
    cb.stats.consecutive_failures < cfg.failure_threshold →
    cfg.failure_threshold ≤ cb.stats.consecutive_failures + ts.length →
    (CircuitBreaker.record_failures cfg cb ts).state = CircuitState.opened ∧
    ∃ t ∈ ts, (CircuitBreaker.record_failures cfg cb ts).opened_at = some t := by
  intro ts
  induction ts with
  | nil =>
      intro cb h hlt hge
      simp only [List.length_nil, Nat.add_zero] at hge
      omega
  | cons t ts ih =>
      intro cb h hlt hge
      simp only [CircuitBreaker.record_failures]
      by_cases hth : cfg.failure_threshold ≤ cb.stats.consecutive_failures + 1
      · have hstep : (CircuitBreaker.record_failure cfg cb t).state = CircuitState.opened ∧
            (CircuitBreaker.record_failure cfg cb t).opened_at = some t := by
          simp [CircuitBreaker.record_failure, h, hth]
        have h2 := CircuitBreaker.record_failures_of_opened cfg ts _ hstep.1
        exact ⟨h2.1, t, List.mem_cons_self _ _, h2.2.trans hstep.2⟩
      · have hstep : (CircuitBreaker.record_failure cfg cb t).state = CircuitState.closed ∧
            (CircuitBreaker.record_failure cfg cb t).stats.consecutive_failures
              = cb.stats.consecutive_failures + 1 := by
          simp [CircuitBreaker.record_failure, h, hth]
        have hlen : cfg.failure_threshold
            ≤ (CircuitBreaker.record_failure cfg cb t).stats.consecutive_failures + ts.length := by
          rw [hstep.2]
          simp only [List.length_cons] at hge
          omega
        obtain ⟨hs, t', ht'm, ht'a⟩ :=
          ih _ hstep.1 (by rw [hstep.2]; omega) hlen
        exact ⟨hs, t', List.mem_cons_of_mem _ ht'm, ht'a⟩

/-- C3 (circuit breaker liveness): starting CLOSED below the failure
threshold, a run of `record_failure` calls at positive times that reaches
`failure_threshold` leaves the breaker OPEN with `opened_at` set to the
opening failure time `t`; a `can_execute` before `recovery_timeout` has
elapsed since `t` returns false and keeps the breaker OPEN, and the next
`can_execute` at or after the elapse returns true and moves it to
HALF_OPEN. -/
theorem circuit_breaker_liveness (cfg : CircuitBreakerConfig) (cb : CircuitBreaker)
    (ts : List Rat) (t now1 now2 : Rat)
    (hclosed : cb.state = CircuitState.closed)
    (hlt : cb.stats.consecutive_failures < cfg.failure_threshold)
    (hreach : cfg.failure_threshold ≤ cb.stats.consecutive_failures + ts.length)
    (hpos : ∀ x ∈ ts, 0 < x)
    (hat : (CircuitBreaker.record_failures cfg cb ts).opened_at = some t)
    (h1 : now1 - t < cfg.recovery_timeout)
    (h2 : cfg.recovery_timeout ≤ now2 - t) :
    (CircuitBreaker.record_failures cfg cb ts).state = CircuitState.opened ∧
    (CircuitBreaker.can_execute cfg (CircuitBreaker.record_failures cfg cb ts) now1).1
        = false ∧
    ((CircuitBreaker.can_execute cfg (CircuitBreaker.record_failures cfg cb ts) now1).2).state
        = CircuitState.opened ∧
    (CircuitBreaker.can_execute cfg
        ((CircuitBreaker.can_execute cfg (CircuitBreaker.record_failures cfg cb ts) now1).2)
        now2).1 = true ∧
    ((CircuitBreaker.can_execute cfg
        ((CircuitBreaker.can_execute cfg (CircuitBreaker.record_failures cfg cb ts) now1).2)
        now2).2).state = CircuitState.halfOpen := by
  obtain ⟨hopen, t', ht'm, ht'a⟩ :=
    CircuitBreaker.record_failures_open cfg ts cb hclosed hlt hreach
  have htt : t' = t := by
    rw [hat] at ht'a
    exact (Option.some_inj.mp ht'a).symm
  subst htt
  have htpos : 0 < t' := hpos t' ht'm
  set cbF := CircuitBreaker.record_failures cfg cb ts with hcbF
  have hnot : ¬ (cbF.opened_at.getD 0 ≠ 0 ∧ cfg.recovery_timeout ≤ now1 - cbF.opened_at.getD 0) := by
    rw [hat]
    intro hand
    simp only [Option.getD_some] at hand
    exact absurd hand.2 (not_le.mpr h1)
  have hfirst : CircuitBreaker.can_execute cfg cbF now1
      = (false, { cbF with stats := { cbF.stats with rejected := cbF.stats.rejected + 1 } }) := by
    simp [CircuitBreaker.can_execute, hopen, hnot]
  have hsecond :
      (CircuitBreaker.can_execute cfg
        { cbF with stats := { cbF.stats with rejected := cbF.stats.rejected + 1 } } now2).1
        = true ∧
      ((CircuitBreaker.can_execute cfg
        { cbF with stats := { cbF.stats with rejected := cbF.stats.rejected + 1 } } now2).2).state
        = CircuitState.halfOpen := by
    have hyes : ({ cbF with stats := { cbF.stats with rejected := cbF.stats.rejected + 1 } }
          : CircuitBreaker).opened_at.getD 0 ≠ 0 ∧
        cfg.recovery_timeout ≤ now2 -
          ({ cbF with stats := { cbF.stats with rejected := cbF.stats.rejected + 1 } }
            : CircuitBreaker).opened_at.getD 0 := by
      simp only [hat, Option.getD_some]
      exact ⟨ne_of_gt htpos, h2⟩
    constructor <;> simp [CircuitBreaker.can_execute, hopen, hyes]
  refine ⟨hopen, ?_, ?_, ?_, ?_⟩
  · rw [hfirst]
  · rw [hfirst]; exact hopen
  · rw [hfirst]; exact hsecond.1
  · rw [hfirst]; exact hsecond.2

/-- Witness for C3 at a concrete configuration: threshold 2, two failures at
times 1 and 2, a rejected check at time 10 and an allowed one at time 40. -/
theorem circuit_breaker_liveness_witness :
    (CircuitBreaker.record_failures { failure_threshold := 2 } {} [1, 2]).state
        = CircuitState.opened ∧
    (CircuitBreaker.can_execute { failure_threshold := 2 }
        (CircuitBreaker.record_failures { failure_threshold := 2 } {} [1, 2]) 10).1 = false ∧
    ((CircuitBreaker.can_execute { failure_threshold := 2 }
        (CircuitBreaker.record_failures { failure_threshold := 2 } {} [1, 2]) 10).2).state
        = CircuitState.opened ∧
    (CircuitBreaker.can_execute { failure_threshold := 2 }
        ((CircuitBreaker.can_execute { failure_threshold := 2 }
          (CircuitBreaker.record_failures { failure_threshold := 2 } {} [1, 2]) 10).2) 40).1
        = true ∧
    ((CircuitBreaker.can_execute { failure_threshold := 2 }
        ((CircuitBreaker.can_execute { failure_threshold := 2 }
          (CircuitBreaker.record_failures { failure_threshold := 2 } {} [1, 2]) 10).2) 40).2).state
        = CircuitState.halfOpen :=
  circuit_breaker_liveness { failure_threshold := 2 } {} [1, 2] 2 10 40
    (by decide) (by decide) (by decide) (by norm_num) (by decide) (by norm_num) (by norm_num)

/-- C4 (half-open probe window): while HALF_OPEN, a run of `can_execute`
calls permits exactly `min` of the number of calls and the remaining probe
budget, each permitted call raises `half_open_calls` by one, every other
call is counted in `rejected`, and the breaker stays HALF_OPEN; in
particular `half_open_calls` never passes `half_open_max_calls`. -/
theorem half_open_probe_bound (cfg : CircuitBreakerConfig) :
    ∀ (ts : List Rat) (cb : CircuitBreaker), cb.state = CircuitState.halfOpen →
    (CircuitBreaker.can_execute_seq cfg cb ts).1
        = min ts.length (cfg.half_open_max_calls - cb.half_open_calls) ∧
    (CircuitBreaker.can_execute_seq cfg cb ts).2.state = CircuitState.halfOpen ∧
    (CircuitBreaker.can_execute_seq cfg cb ts).2.half_open_calls
        = cb.half_open_calls + min ts.length (cfg.half_open_max_calls - cb.half_open_calls) ∧
    (CircuitBreaker.can_execute_seq cfg cb ts).2.stats.rejected
        = cb.stats.rejected + (ts.length - (cfg.half_open_max_calls - cb.half_open_calls)) ∧
    (cb.half_open_calls ≤ cfg.half_open_max_calls →
      (CircuitBreaker.can_execute_seq cfg cb ts).2.half_open_calls
        ≤ cfg.half_open_max_calls) := by
  intro ts
  induction ts with
  | nil =>
      intro cb h
      refine ⟨by simp [CircuitBreaker.can_execute_seq], h, ?_, ?_, ?_⟩ <;>
        simp [CircuitBreaker.can_execute_seq]
  | cons t ts ih =>
      intro cb h
      simp only [CircuitBreaker.can_execute_seq]
      by_cases hc : cb.half_open_calls < cfg.half_open_max_calls
      · have hstep : CircuitBreaker.can_execute cfg cb t
            = (true, { cb with half_open_calls := cb.half_open_calls + 1 }) := by
          simp [CircuitBreaker.can_execute, h, hc]
        rw [hstep]
        have ih' := ih { cb with half_open_calls := cb.half_open_calls + 1 } h
        simp only [List.length_cons] at ih' ⊢
        simp at ih' ⊢
        obtain ⟨i1, i2, i3, i4, _⟩ := ih'
        refine ⟨?_, i2, ?_, ?_, ?_⟩
        · rw [i1]; omega
        · rw [i3]; omega
        · rw [i4]; omega
        · intro _; rw [i3]; omega
      · have hstep : CircuitBreaker.can_execute cfg cb t
            = (false, { cb with stats := { cb.stats with rejected := cb.stats.rejected + 1 } }) := by
          simp [CircuitBreaker.can_execute, h, hc]
        rw [hstep]
        have ih' := ih { cb with stats := { cb.stats with rejected := cb.stats.rejected + 1 } } h
        simp only [List.length_cons] at ih' ⊢
        simp at ih' ⊢
        obtain ⟨i1, i2, i3, i4, _⟩ := ih'
        refine ⟨?_, i2, ?_, ?_, ?_⟩
        · rw [i1]; omega
        · rw [i3]; omega
        · rw [i4]; omega
        · intro _; rw [i3]; omega

/-- Witness for C4: a fresh half-open window with budget 3 and five checks
permits exactly three calls, rejects two, and stays within the budget. -/
theorem half_open_probe_bound_witness :
    (CircuitBreaker.can_execute_seq {} { state := CircuitState.halfOpen } [1, 2, 3, 4, 5]).1
        = min 5 (3 - 0) ∧
    (CircuitBreaker.can_execute_seq {} { state := CircuitState.halfOpen }
        [1, 2, 3, 4, 5]).2.state = CircuitState.halfOpen ∧
    (CircuitBreaker.can_execute_seq {} { state := CircuitState.halfOpen }
        [1, 2, 3, 4, 5]).2.half_open_calls = 0 + min 5 (3 - 0) ∧
    (CircuitBreaker.can_execute_seq {} { state := CircuitState.halfOpen }
        [1, 2, 3, 4, 5]).2.stats.rejected = 0 + (5 - (3 - 0)) ∧
    (0 ≤ 3 →
      (CircuitBreaker.can_execute_seq {} { state := CircuitState.halfOpen }
        [1, 2, 3, 4, 5]).2.half_open_calls ≤ 3) :=
  half_open_probe_bound {} [1, 2, 3, 4, 5] { state := CircuitState.halfOpen } rfl

/-! ## Retry mechanism (src/retry_mechanism.py) -/

/-- The exception classes that flow through the retry wrappers, as far as
the checked properties distinguish them: the internally raised
`CircuitBreakerOpenError` and any exception raised by the wrapped
function. -/
inductive RetryErrorClass where
  | circuitBreakerOpenError
  | funcError
deriving DecidableEq

/-- Embeds `RetryConfig`.  `jitter_max` defaults to `0.5` as in the source;
the exception lists hold the error classes above.  The attached circuit
breaker is passed separately to the runner so its state can be threaded. -/
structure RetryConfig where
  max_retries : Nat := 3
  base_delay : Rat := 1
  max_delay : Rat := 60
  exponential_base : Rat := 2
  jitter : Bool := true
  jitter_max : Rat := 1/2
  retryable_exceptions : List RetryErrorClass := []
  non_retryable_exceptions : List RetryErrorClass := []
deriving DecidableEq

/-- Embeds `RetryContext.calculate_delay`; `u` is the `random.uniform(-1, 1)`
draw used when jitter is on. -/
def RetryConfig.calculate_delay (config : RetryConfig) (attempt : Nat) (u : Rat) : Rat :=
  let delay := config.base_delay * config.exponential_base ^ attempt
  let delay := min delay config.max_delay
  if config.jitter then
    max 0 (delay + delay * config.jitter_max * u)
  else delay

/-- The delay before jitter is applied: the value the source computes on its
first two lines of `calculate_delay`. -/
def RetryConfig.calculate_delay_unjittered (config : RetryConfig) (attempt : Nat) : Rat :=
  min (config.base_delay * config.exponential_base ^ attempt) config.max_delay

/-- Embeds `RetryContext.should_retry`: the attempt bound, then the
non-retryable list, then the retryable list, then retry-by-default. -/
def RetryConfig.should_retry (config : RetryConfig) (e : RetryErrorClass) (attempt : Nat) :
    Bool :=
  if config.max_retries ≤ attempt then false
  else if config.non_retryable_exceptions.contains e then false
  else if config.retryable_exceptions ≠ [] then config.retryable_exceptions.contains e
  else true

/-- Observable outcome of one run of the `retry` wrapper. -/
structure RetryTrace where
  result : Except RetryErrorClass Int
  attempts : Nat
  total_delay : Rat
  breaker_failures : Nat
  breaker : Option (CircuitBreakerConfig × CircuitBreaker)

/-- Record a success on the attached breaker, when one is attached. -/
def breakerSuccess (b : Option (CircuitBreakerConfig × CircuitBreaker)) :
    Option (CircuitBreakerConfig × CircuitBreaker) :=
  b.map fun p => (p.1, CircuitBreaker.record_success p.1 p.2)

/-- Record a failure on the attached breaker, when one is attached. -/
def breakerFailure (b : Option (CircuitBreakerConfig × CircuitBreaker)) (now : Rat) :
    Option (CircuitBreakerConfig × CircuitBreaker) :=
  b.map fun p => (p.1, CircuitBreaker.record_failure p.1 p.2 now)

/-- One if a breaker is attached (one `record_failure` call happens), else
zero. -/
def breakerFailureCount (b : Option (CircuitBreakerConfig × CircuitBreaker)) : Nat :=
  if b.isSome then 1 else 0

/-- Embeds the body of the `retry` decorator's `for attempt in
range(config.max_retries + 1)` loop.  `remaining` is the number of loop
iterations left, `attempt` the current index.  `func i` is the outcome the
wrapped function produces when invoked on attempt `i`; `nowAt i` the
`time.time()` at attempt `i` (seen by the breaker); `us i` the jitter draw
of attempt `i`.  The `CircuitBreakerOpenError` raised when the attached
breaker denies permission is raised inside the `try`, so it is caught by the
same `except Exception` handler as a function failure: the context and the
breaker record a failure, and `should_retry` decides between a backoff sleep
and re-raising.  (`async_retry` treats `CircuitBreakerOpenError` through the
identical `except Exception` branch.)  When the loop runs out the source
re-raises the last recorded error, which is unreachable here because the
final attempt always returns or re-raises. -/
def retry_go (config : RetryConfig) (func : Nat → Except Unit Int) (nowAt us : Nat → Rat) :
    Nat → Nat → Option (CircuitBreakerConfig × CircuitBreaker) → Nat → Rat → Nat →
    RetryTrace
  | 0, _, b, att, dly, bf =>
      { result := Except.error RetryErrorClass.funcError, attempts := att,
        total_delay := dly, breaker_failures := bf, breaker := b }
  | remaining + 1, attempt, b, att, dly, bf =>
      let att := att + 1
      let cbCheck : Bool × Option (CircuitBreakerConfig × CircuitBreaker) :=
        match b with
        | none => (true, none)
        | some (bcfg, cb) =>
            let step := CircuitBreaker.can_execute bcfg cb (nowAt attempt)
            (step.1, some (bcfg, step.2))
      if cbCheck.1 then
        match func attempt with
        | Except.ok v =>
            { result := Except.ok v, attempts := att, total_delay := dly,
              breaker_failures := bf, breaker := breakerSuccess cbCheck.2 }
        | Except.error _ =>
            let b2 := breakerFailure cbCheck.2 (nowAt attempt)
            let bf := bf + breakerFailureCount cbCheck.2
            if config.should_retry RetryErrorClass.funcError attempt then
              retry_go config func nowAt us remaining (attempt + 1) b2 att
                (dly + config.calculate_delay attempt (us attempt)) bf
            else
              { result := Except.error RetryErrorClass.funcError, attempts := att,
                total_delay := dly, breaker_failures := bf, breaker := b2 }
      else
        let b2 := breakerFailure cbCheck.2 (nowAt attempt)
        let bf := bf + breakerFailureCount cbCheck.2
        if config.should_retry RetryErrorClass.circuitBreakerOpenError attempt then
          retry_go config func nowAt us remaining (attempt + 1) b2 att
            (dly + config.calculate_delay attempt (us attempt)) bf
        else
          { result := Except.error RetryErrorClass.circuitBreakerOpenError, attempts := att,
            total_delay := dly, breaker_failures := bf, breaker := b2 }

/-- A full run of the `retry` wrapper: `max_retries + 1` loop iterations
starting at attempt 0 with fresh statistics. -/
def retry_run (config : RetryConfig) (b : Option (CircuitBreakerConfig × CircuitBreaker))
    (func : Nat → Except Unit Int) (nowAt us : Nat → Rat) : RetryTrace :=
  retry_go config func nowAt us (config.max_retries + 1) 0 b 0 0 0

/-- Sum of the backoff delays of `n` consecutive retried attempts starting
at attempt index `lo`. -/
def backoff_total (config : RetryConfig) (us : Nat → Rat) : Nat → Nat → Rat
  | _, 0 => 0
  | lo, n + 1 => config.calculate_delay lo (us lo) + backoff_total config us (lo + 1) n

/-- Helper: while the attached breaker stays OPEN and unexpired, every loop
iteration of the `retry` wrapper consumes an attempt, records a breaker
failure and (except on the final attempt) sleeps the backoff delay, ending
with the `CircuitBreakerOpenError` re-raised. -/
theorem retry_go_rejected (config : RetryConfig) (bcfg : CircuitBreakerConfig)
    (func : Nat → Except Unit Int) (nowAt us : Nat → Rat) (t : Rat)
    (hnr : config.non_retryable_exceptions = [])
    (hre : config.retryable_exceptions = [])
    (hreject : ∀ i, nowAt i - t < bcfg.recovery_timeout) :
    ∀ (remaining attempt : Nat) (cb : CircuitBreaker) (att : Nat) (dly : Rat) (bf : Nat),
    remaining + attempt = config.max_retries + 1 →
    1 ≤ remaining →
    cb.state = CircuitState.opened →
    cb.opened_at = some t →
    (retry_go config func nowAt us remaining attempt (some (bcfg, cb)) att dly bf).result
        = Except.error RetryErrorClass.circuitBreakerOpenError ∧
    (retry_go config func nowAt us remaining attempt (some (bcfg, cb)) att dly bf).attempts
        = att + remaining ∧
    (retry_go config func nowAt us remaining attempt
        (some (bcfg, cb)) att dly bf).breaker_failures = bf + remaining ∧
    (retry_go config func nowAt us remaining attempt (some (bcfg, cb)) att dly bf).total_delay
        = dly + backoff_total config us attempt (remaining - 1) := by
  intro remaining
  induction remaining with
  | zero => intro attempt cb att dly bf _ h1; omega
  | succ r ih =>
      intro attempt cb att dly bf hsum _ hstate hat
      have hguard : ¬ (cb.opened_at.getD 0 ≠ 0 ∧
          bcfg.recovery_timeout ≤ nowAt attempt - cb.opened_at.getD 0) := by
        rw [hat]
        intro hand
        simp only [Option.getD_some] at hand
        exact absurd hand.2 (not_le.mpr (hreject attempt))
      obtain ⟨cbR, hcan, hstR, hatR⟩ :
          ∃ cbR, CircuitBreaker.can_execute bcfg cb (nowAt attempt) = (false, cbR) ∧
            cbR.state = CircuitState.opened ∧ cbR.opened_at = some t := by
        refine ⟨{ cb with stats := { cb.stats with rejected := cb.stats.rejected + 1 } },
          ?_, ?_, ?_⟩
        · simp [CircuitBreaker.can_execute, hstate, hguard]
        · simpa using hstate
        · simpa using hat
      obtain ⟨hst2, hat2⟩ :
          (CircuitBreaker.record_failure bcfg cbR (nowAt attempt)).state
              = CircuitState.opened ∧
          (CircuitBreaker.record_failure bcfg cbR (nowAt attempt)).opened_at = some t := by
        constructor <;> simp [CircuitBreaker.record_failure, hstR, hatR]
      rcases Nat.eq_zero_or_pos r with hr | hr
      · subst hr
        have hattempt : attempt = config.max_retries := by omega
        have hsr : config.should_retry RetryErrorClass.circuitBreakerOpenError attempt
            = false := by
          simp [RetryConfig.should_retry, hattempt]
        simp only [retry_go]
        simp [hcan, hsr, breakerFailure, breakerFailureCount, backoff_total]
      · have hlt : ¬ (config.max_retries ≤ attempt) := by omega
        have hsr : config.should_retry RetryErrorClass.circuitBreakerOpenError attempt
            = true := by
          simp [RetryConfig.should_retry, hlt, hnr, hre]
        obtain ⟨i1, i2, i3, i4⟩ := ih (attempt + 1)
          (CircuitBreaker.record_failure bcfg cbR (nowAt attempt))
          (att + 1) (dly + config.calculate_delay attempt (us attempt)) (bf + 1)
          (by omega) hr hst2 hat2
        simp only [retry_go]
        simp only [hcan, hsr, breakerFailure, breakerFailureCount]
        simp only [Option.map_some', Option.isSome_some, if_true, if_false,
          Bool.false_eq_true, ite_false, ite_true]
        refine ⟨i1, ?_, ?_, ?_⟩
        · rw [i2]; omega
        · rw [i3]; omega
        · rw [i4]
          obtain ⟨r', rfl⟩ : ∃ r', r = r' + 1 := ⟨r - 1, by omega⟩
          simp only [backoff_total, Nat.succ_sub_one]
          ring

/-- C2 amended (breaker-open behavior of the retry wrappers): when the
attached breaker denies every permission check, the internally raised
`CircuitBreakerOpenError` is caught by the generic exception handler like
any failure, so under the default policy (no configured exception lists)
every one of the `max_retries + 1` loop iterations consumes an attempt and
records a failure on the breaker, the backoff delay is slept before each of
the `max_retries` re-attempts, and the error propagates only once
`should_retry` denies on the final attempt. -/
theorem retry_open_breaker_retried (config : RetryConfig) (bcfg : CircuitBreakerConfig)
    (cb : CircuitBreaker) (t : Rat) (func : Nat → Except Unit Int) (nowAt us : Nat → Rat)
    (hnr : config.non_retryable_exceptions = [])
    (hre : config.retryable_exceptions = [])
    (hstate : cb.state = CircuitState.opened)
    (hat : cb.opened_at = some t)
    (hreject : ∀ i, nowAt i - t < bcfg.recovery_timeout) :
    (retry_run config (some (bcfg, cb)) func nowAt us).result
        = Except.error RetryErrorClass.circuitBreakerOpenError ∧
    (retry_run config (some (bcfg, cb)) func nowAt us).attempts = config.max_retries + 1 ∧
    (retry_run config (some (bcfg, cb)) func nowAt us).breaker_failures
        = config.max_retries + 1 ∧
    (retry_run config (some (bcfg, cb)) func nowAt us).total_delay
        = backoff_total config us 0 config.max_retries := by
  obtain ⟨i1, i2, i3, i4⟩ := retry_go_rejected config bcfg func nowAt us t hnr hre hreject
    (config.max_retries + 1) 0 cb 0 0 0 rfl (by omega) hstate hat
  refine ⟨i1, by simpa using i2, by simpa using i3, ?_⟩
  rw [retry_run, i4]
  simp

/-- Witness for the amended C2 at a concrete rejecting breaker. -/
theorem retry_open_breaker_retried_witness :
    (retry_run { max_retries := 2, jitter := false }
        (some ({ recovery_timeout := 1000 },
               { state := CircuitState.opened, opened_at := some 100 }))
        (fun _ => Except.ok 5) (fun _ => 200) (fun _ => 0)).result
        = Except.error RetryErrorClass.circuitBreakerOpenError ∧
    (retry_run { max_retries := 2, jitter := false }
        (some ({ recovery_timeout := 1000 },
               { state := CircuitState.opened, opened_at := some 100 }))
        (fun _ => Except.ok 5) (fun _ => 200) (fun _ => 0)).attempts = 2 + 1 ∧
    (retry_run { max_retries := 2, jitter := false }
        (some ({ recovery_timeout := 1000 },
               { state := CircuitState.opened, opened_at := some 100 }))
        (fun _ => Except.ok 5) (fun _ => 200) (fun _ => 0)).breaker_failures = 2 + 1 ∧
    (retry_run { max_retries := 2, jitter := false }
        (some ({ recovery_timeout := 1000 },
               { state := CircuitState.opened, opened_at := some 100 }))
        (fun _ => Except.ok 5) (fun _ => 200) (fun _ => 0)).total_delay
        = backoff_total { max_retries := 2, jitter := false } (fun _ => 0) 0 2 :=
  retry_open_breaker_retried { max_retries := 2, jitter := false } { recovery_timeout := 1000 }
    { state := CircuitState.opened, opened_at := some 100 } 100
    (fun _ => Except.ok 5) (fun _ => 200) (fun _ => 0)
    rfl rfl rfl rfl (fun _ => by norm_num)

/-- C2 counterexample: with a denying breaker, default exception lists and
`max_retries = 2`, the wrapper consumes three attempts and sleeps a total
backoff of 3 seconds before the `CircuitBreakerOpenError` reaches the
caller — it does not fail fast with no delay and no attempt consumed. -/
theorem retry_fail_fast_counterexample :
    (retry_run { max_retries := 2, jitter := false }
        (some ({ recovery_timeout := 1000 },
               { state := CircuitState.opened, opened_at := some 100 }))
        (fun _ => Except.ok 5) (fun _ => 200) (fun _ => 0)).attempts = 3 ∧
    (retry_run { max_retries := 2, jitter := false }
        (some ({ recovery_timeout := 1000 },
               { state := CircuitState.opened, opened_at := some 100 }))
        (fun _ => Except.ok 5) (fun _ => 200) (fun _ => 0)).total_delay = 3 ∧
    ¬ ((retry_run { max_retries := 2, jitter := false }
        (some ({ recovery_timeout := 1000 },
               { state := CircuitState.opened, opened_at := some 100 }))
        (fun _ => Except.ok 5) (fun _ => 200) (fun _ => 0)).total_delay = 0 ∧
       (retry_run { max_retries := 2, jitter := false }
        (some ({ recovery_timeout := 1000 },
               { state := CircuitState.opened, opened_at := some 100 }))
        (fun _ => Except.ok 5) (fun _ => 200) (fun _ => 0)).attempts ≤ 1) ∧
    (retry_run { max_retries := 2, jitter := false }
        (some ({ recovery_timeout := 1000 },
               { state := CircuitState.opened, opened_at := some 100 }))
        (fun _ => Except.ok 5) (fun _ => 200) (fun _ => 0)).result
        = Except.error RetryErrorClass.circuitBreakerOpenError := by
  have h : ∀ i : Nat, ((200 : Rat) - 100 < 1000) := fun _ => by norm_num
  refine ⟨?_, ?_, ?_, ?_⟩ <;>
    norm_num [retry_run, retry_go, CircuitBreaker.can_execute, CircuitBreaker.record_failure,
      RetryConfig.should_retry, RetryConfig.calculate_delay, breakerFailure, breakerSuccess,
      breakerFailureCount]

/-- C5 (backoff monotonic cap): with a nonnegative base delay, a
nonnegative cap, growth factor at least one and a jitter factor within the
source default range (`jitter_max ≤ 0.5`), the unjittered delay equals
`min(base_delay * exponential_base ^ attempt, max_delay)`, it is
non-decreasing in the attempt, and for every jitter draw `u ∈ [-1, 1]` the
returned delay lies within `[0, 1.5 ×` the unjittered value`]`. -/
theorem backoff_monotone_cap (config : RetryConfig) (a b : Nat) (u : Rat)
    (hbase : 0 ≤ config.base_delay)
    (hexp : 1 ≤ config.exponential_base)
    (hmax : 0 ≤ config.max_delay)
    (hab : a ≤ b)
    (hjm0 : 0 ≤ config.jitter_max)
    (hjm : config.jitter_max ≤ 1/2)
    (hu1 : -1 ≤ u) (hu2 : u ≤ 1)
    (hj : config.jitter = true) :
    config.calculate_delay_unjittered a
        = min (config.base_delay * config.exponential_base ^ a) config.max_delay ∧
    config.calculate_delay_unjittered a ≤ config.calculate_delay_unjittered b ∧
    0 ≤ config.calculate_delay a u ∧
    config.calculate_delay a u ≤ 3/2 * config.calculate_delay_unjittered a := by
  have hd0 : 0 ≤ config.calculate_delay_unjittered a :=
    le_min (mul_nonneg hbase (pow_nonneg (le_trans zero_le_one hexp) a)) hmax
  have hdj : config.calculate_delay a u
      = max 0 (config.calculate_delay_unjittered a
          + config.calculate_delay_unjittered a * config.jitter_max * u) := by
    simp only [RetryConfig.calculate_delay, RetryConfig.calculate_delay_unjittered, hj,
      if_true]
  refine ⟨rfl, ?_, ?_, ?_⟩
  · exact min_le_min
      (mul_le_mul_of_nonneg_left (pow_le_pow_right₀ hexp hab) hbase) le_rfl
  · rw [hdj]; exact le_max_left 0 _
  · rw [hdj]
    refine max_le (by linarith) ?_
    have h1 : config.calculate_delay_unjittered a * config.jitter_max * u
        ≤ config.calculate_delay_unjittered a * config.jitter_max * 1 :=
      mul_le_mul_of_nonneg_left hu2 (mul_nonneg hd0 hjm0)
    have h2 : config.calculate_delay_unjittered a * config.jitter_max
        ≤ config.calculate_delay_unjittered a * (1/2) :=
      mul_le_mul_of_nonneg_left hjm hd0
    nlinarith [hd0]

/-- Witness for C5 at the default configuration, attempts 1 and 2, and the
extreme jitter draw `u = 1`. -/
theorem backoff_monotone_cap_witness :
    ({ jitter := true } : RetryConfig).calculate_delay_unjittered 1
        = min (({ jitter := true } : RetryConfig).base_delay
            * ({ jitter := true } : RetryConfig).exponential_base ^ 1)
            ({ jitter := true } : RetryConfig).max_delay ∧
    ({ jitter := true } : RetryConfig).calculate_delay_unjittered 1
        ≤ ({ jitter := true } : RetryConfig).calculate_delay_unjittered 2 ∧
    0 ≤ ({ jitter := true } : RetryConfig).calculate_delay 1 1 ∧
    ({ jitter := true } : RetryConfig).calculate_delay 1 1
        ≤ 3/2 * ({ jitter := true } : RetryConfig).calculate_delay_unjittered 1 :=
  backoff_monotone_cap { jitter := true } 1 2 1
    (by norm_num) (by norm_num) (by norm_num) (by norm_num)
    (by norm_num) (by norm_num) (by norm_num) (by norm_num) rfl

/-! ## Task orchestrator and watchdog (src/invoice_bot/orchestrator.py,
src/invoice_bot/watchdog.py) -/

/-- Embeds `TaskStatus`; the source enum member is `TIMEOUT` with value
"timeout" (the spec calls the same state TIMED_OUT). -/
inductive TaskStatus where
  | pending
  | running
  | completed
  | failed
  | timeout
  | recovered
deriving DecidableEq

/-- Embeds `TrackedTask` (the `message_id`/`result` payload fields carry no
checked property and are omitted; `result` is returned alongside). -/
structure TrackedTask where
  task_id : String
  chat_id : Int
  user_id : Int
  task_type : String
  started_at : Rat
  timeout_seconds : Rat := 30
  status : TaskStatus := TaskStatus.pending
  retry_count : Nat := 0
  max_retries : Nat := 3
  error : Option String := none
deriving DecidableEq

/-- Embeds `Orchestrator.complete_task`: the task leaves the live registry
for the history with status COMPLETED. -/
def Orchestrator.complete_task (task : TrackedTask) : TrackedTask :=
  { task with status := TaskStatus.completed }

/-- Embeds `Orchestrator.fail_task`: the task leaves the live registry for
the history with status FAILED and the error recorded. -/
def Orchestrator.fail_task (task : TrackedTask) (e : String) : TrackedTask :=
  { task with status := TaskStatus.failed, error := some e }

/-- Outcome of awaiting the wrapped coroutine under `asyncio.wait_for`. -/
inductive PrimaryOutcome where
  | success (v : Int)
  | timedOut
  | errored
deriving DecidableEq

/-- The error the caller of `execute_with_timeout` sees when it re-raises. -/
inductive ExecError where
  | timeoutError
  | opError
deriving DecidableEq

/-- Embeds `Orchestrator.execute_with_timeout` from the moment the task is
tracked as RUNNING.  Returns the caller-visible result, the task as it is
archived to `task_history`, and the list of statuses assigned to the task
in order.  `fallback` is the outcome `fallback_handler()` would produce,
`none` when no fallback was supplied. -/
def Orchestrator.execute_with_timeout (task : TrackedTask) (primary : PrimaryOutcome)
    (fallback : Option (Except Unit Int)) :
    Except ExecError Int × TrackedTask × List TaskStatus :=
  match primary with
  | PrimaryOutcome.success v =>
      (Except.ok v, Orchestrator.complete_task task, [TaskStatus.completed])
  | PrimaryOutcome.timedOut =>
      let task := { task with status := TaskStatus.timeout }
      match fallback with
      | some (Except.ok v) =>
          let task := { task with status := TaskStatus.recovered }
          (Except.ok v, Orchestrator.complete_task task,
            [TaskStatus.timeout, TaskStatus.recovered, TaskStatus.completed])
      | some (Except.error _) =>
          (Except.error ExecError.timeoutError,
            Orchestrator.fail_task task ("Timeout"),
            [TaskStatus.timeout, TaskStatus.failed])
      | none =>
          (Except.error ExecError.timeoutError,
            Orchestrator.fail_task task ("Timeout"),
            [TaskStatus.timeout, TaskStatus.failed])
  | PrimaryOutcome.errored =>
      (Except.error ExecError.opError, Orchestrator.fail_task task ("error"),
        [TaskStatus.failed])

/-- Embeds `Orchestrator.recover_stuck_task`, the mutation the Watchdog
applies to a stuck task through `_recover_task`: user feedback is sent, then
`fail_task` archives the task as FAILED with the watchdog reason. -/
def Orchestrator.recover_stuck_task (task : TrackedTask) : TrackedTask :=
  Orchestrator.fail_task task ("Stuck task recovered by watchdog")

/-- Embeds the Watchdog stuck test of `_check_health`: recovery is applied
to a live task when `elapsed > timeout * stuck_threshold`. -/
def Watchdog.is_stuck (stuck_threshold : Rat) (task : TrackedTask) (now : Rat) : Bool :=
  decide (task.timeout_seconds * stuck_threshold < now - task.started_at)

/-- C1 counterexample: a task whose operation times out while a fallback
succeeds returns the fallback result but is archived COMPLETED — not
RECOVERED, because `complete_task` overwrites the transient RECOVERED mark;
and with no fallback the task is archived FAILED — not TIMED_OUT, because
`fail_task` overwrites the transient TIMEOUT mark. -/
theorem orchestrator_timeout_status_counterexample :
    (Orchestrator.execute_with_timeout
        { task_id := ("t1"), chat_id := 7, user_id := 9, task_type := ("ai_extraction"),
          started_at := 0, status := TaskStatus.running }
        PrimaryOutcome.timedOut (some (Except.ok 42))).1 = Except.ok 42 ∧
    (Orchestrator.execute_with_timeout
        { task_id := ("t1"), chat_id := 7, user_id := 9, task_type := ("ai_extraction"),
          started_at := 0, status := TaskStatus.running }
        PrimaryOutcome.timedOut (some (Except.ok 42))).2.1.status = TaskStatus.completed ∧
    ¬ ((Orchestrator.execute_with_timeout
        { task_id := ("t1"), chat_id := 7, user_id := 9, task_type := ("ai_extraction"),
          started_at := 0, status := TaskStatus.running }
        PrimaryOutcome.timedOut (some (Except.ok 42))).2.1.status = TaskStatus.recovered) ∧
    (Orchestrator.execute_with_timeout
        { task_id := ("t1"), chat_id := 7, user_id := 9, task_type := ("ai_extraction"),
          started_at := 0, status := TaskStatus.running }
        PrimaryOutcome.timedOut none).2.1.status = TaskStatus.failed ∧
    ¬ ((Orchestrator.execute_with_timeout
        { task_id := ("t1"), chat_id := 7, user_id := 9, task_type := ("ai_extraction"),
          started_at := 0, status := TaskStatus.running }
        PrimaryOutcome.timedOut none).2.1.status = TaskStatus.timeout) := by
  refine ⟨rfl, rfl, ?_, rfl, ?_⟩ <;> decide

/-- C1 amended (orchestrator timeout + fallback): on a timeout with a
succeeding fallback the fallback's result is returned, the task is
transiently marked TIMEOUT then RECOVERED, but `complete_task` archives it
as COMPLETED; on a timeout with no fallback, or with a failing fallback,
the status trace is TIMEOUT then FAILED, the task is archived FAILED with
the timeout error recorded, and the original timeout error is re-raised. -/
theorem orchestrator_timeout_fallback (task : TrackedTask) (v : Int) :
    (Orchestrator.execute_with_timeout task PrimaryOutcome.timedOut (some (Except.ok v))).1
        = Except.ok v ∧
    (Orchestrator.execute_with_timeout task PrimaryOutcome.timedOut
        (some (Except.ok v))).2.1.status = TaskStatus.completed ∧
    (Orchestrator.execute_with_timeout task PrimaryOutcome.timedOut
        (some (Except.ok v))).2.2
        = [TaskStatus.timeout, TaskStatus.recovered, TaskStatus.completed] ∧
    (Orchestrator.execute_with_timeout task PrimaryOutcome.timedOut none).1
        = Except.error ExecError.timeoutError ∧
    (Orchestrator.execute_with_timeout task PrimaryOutcome.timedOut none).2.1.status
        = TaskStatus.failed ∧
    (Orchestrator.execute_with_timeout task PrimaryOutcome.timedOut none).2.2
        = [TaskStatus.timeout, TaskStatus.failed] ∧
    (Orchestrator.execute_with_timeout task PrimaryOutcome.timedOut
        (some (Except.error ()))).1 = Except.error ExecError.timeoutError ∧
    (Orchestrator.execute_with_timeout task PrimaryOutcome.timedOut
        (some (Except.error ()))).2.1.status = TaskStatus.failed ∧
    (Orchestrator.execute_with_timeout task PrimaryOutcome.timedOut
        (some (Except.error ()))).2.2 = [TaskStatus.timeout, TaskStatus.failed] :=
  ⟨rfl, rfl, rfl, rfl, rfl, rfl, rfl, rfl, rfl⟩

/-- C9 counterexample: the Watchdog's recovery path archives a stuck task
as FAILED (with the watchdog reason), never as RECOVERED. -/
theorem watchdog_recovered_status_counterexample :
    (Orchestrator.recover_stuck_task
        { task_id := ("t2"), chat_id := 1, user_id := 2,
          task_type := ("document_processing"), started_at := 0,
          status := TaskStatus.running }).status = TaskStatus.failed ∧
    ¬ ((Orchestrator.recover_stuck_task
        { task_id := ("t2"), chat_id := 1, user_id := 2,
          task_type := ("document_processing"), started_at := 0,
          status := TaskStatus.running }).status = TaskStatus.recovered) := by
  exact ⟨rfl, by decide⟩

/-- C9 amended: every task the Watchdog recovers through
`recover_stuck_task` is archived with status FAILED and the error string
"Stuck task recovered by watchdog"; the RECOVERED status is never assigned
on the watchdog path. -/
theorem watchdog_recovery_sets_failed (task : TrackedTask) :
    (Orchestrator.recover_stuck_task task).status = TaskStatus.failed ∧
    (Orchestrator.recover_stuck_task task).error
        = some ("Stuck task recovered by watchdog") ∧
    (Orchestrator.recover_stuck_task task).status ≠ TaskStatus.recovered :=
  ⟨rfl, rfl, by simp [Orchestrator.recover_stuck_task, Orchestrator.fail_task]⟩

/-! ## Dead letter queue (src/dead_letter_queue.py) -/

/-- Embeds `DLQItemStatus`. -/
inductive DLQItemStatus where
  | pending
  | processing
  | retrying
  | failed
  | success
  | discarded
deriving DecidableEq

/-- Embeds `DLQItem` (payload, error_info, processing_history and tags carry
no checked property and are omitted). -/
structure DLQItem where
  id : String
  operation_type : String
  status : DLQItemStatus
  created_at : Rat
  updated_at : Rat
  retry_count : Nat := 0
  max_retries : Nat := 5
  next_retry_at : Option Rat := none
  last_error : Option String := none
  priority : Nat := 5
deriving DecidableEq

/-- Embeds `DLQItem.mark_processing`. -/
def DLQItem.mark_processing (item : DLQItem) (now : Rat) : DLQItem :=
  { item with status := DLQItemStatus.processing, updated_at := now }

/-- Embeds `DLQItem.mark_retry`. -/
def DLQItem.mark_retry (item : DLQItem) (delay_seconds now : Rat) : DLQItem :=
  { item with
      retry_count := item.retry_count + 1,
      status := DLQItemStatus.retrying,
      updated_at := now,
      next_retry_at := some (now + delay_seconds) }

/-- Embeds `DLQItem.mark_success`. -/
def DLQItem.mark_success (item : DLQItem) (now : Rat) : DLQItem :=
  { item with status := DLQItemStatus.success, updated_at := now }

/-- Embeds `DLQItem.mark_failed`. -/
def DLQItem.mark_failed (item : DLQItem) (e : String) (now : Rat) : DLQItem :=
  { item with status := DLQItemStatus.failed, last_error := some e, updated_at := now }

/-- Embeds `DLQItem.mark_discarded`. -/
def DLQItem.mark_discarded (item : DLQItem) (now : Rat) : DLQItem :=
  { item with status := DLQItemStatus.discarded, updated_at := now }

/-- Embeds `DLQItem.is_ready_for_retry` with the wall clock explicit; a set
`next_retry_at` (always a truthy datetime in the source) blocks the item
while `now` is strictly before it. -/
def DLQItem.is_ready_for_retry (item : DLQItem) (now : Rat) : Bool :=
  if item.status ≠ DLQItemStatus.pending ∧ item.status ≠ DLQItemStatus.retrying then
    false
  else if item.max_retries ≤ item.retry_count then
    false
  else
    match item.next_retry_at with
    | some t => if now < t then false else true
    | none => true

/-- Embeds `DeadLetterQueue._process_item` for one item.  `handlerResult`
is the outcome of the registered handler on the item's payload: `none` when
no handler is registered for the operation type, `some (.ok b)` when the
handler returns the truthiness `b`, and `some (.error ())` when it raises.
A falsy return is re-raised as an exception inside the try, so it joins the
exception path. -/
def DeadLetterQueue.process_item (item : DLQItem)
    (handlerResult : Option (Except Unit Bool)) (now : Rat) : DLQItem :=
  match handlerResult with
  | none => item.mark_discarded now
  | some hr =>
      let item := item.mark_processing now
      match hr with
      | Except.ok true => item.mark_success now
      | Except.ok false =>
          let item := { item with last_error := some ("Handler returned False") }
          if item.retry_count < item.max_retries then
            item.mark_retry (min (60 * 2 ^ item.retry_count) 3600) now
          else
            item.mark_failed ("Handler returned False") now
      | Except.error _ =>
          let item := { item with last_error := some ("handler error") }
          if item.retry_count < item.max_retries then
            item.mark_retry (min (60 * 2 ^ item.retry_count) 3600) now
          else
            item.mark_failed ("handler error") now

/-- Stable insertion of an item into a priority-sorted list: the item walks
past strictly smaller priorities only, so it lands before every
equal-priority element of the (later-in-the-original-list) sorted tail,
mirroring the stability of Python's `list.sort`. -/
def DLQ.insert_by_priority (x : DLQItem) : List DLQItem → List DLQItem
  | [] => [x]
  | y :: ys =>
      if y.priority < x.priority then y :: DLQ.insert_by_priority x ys
      else x :: y :: ys

/-- Stable sort by the key `item.priority` alone, the exact key the sweep
uses (`ready_items.sort(key=lambda x: x.priority)`). -/
def DLQ.sort_by_priority : List DLQItem → List DLQItem
  | [] => []
  | x :: xs => DLQ.insert_by_priority x (DLQ.sort_by_priority xs)

/-- Embeds `DeadLetterQueue._process_ready_items` up to the order in which
items are handed to `_process_item`: the ready items (in the insertion
order of the `_items` map) stably sorted by priority. -/
def DeadLetterQueue.ready_order (items : List DLQItem) (now : Rat) : List DLQItem :=
  DLQ.sort_by_priority (items.filter (fun i => i.is_ready_for_retry now))

/-- The strict order of the sweep the checked claim describes, following
the spec text: priority ascending, ties broken by creation time
ascending. -/
def specSweepLt (a b : DLQItem) : Bool :=
  decide (a.priority < b.priority) ||
    (decide (a.priority = b.priority) && decide (a.created_at < b.created_at))

/-- Stable insertion under the claimed (priority, creation time) order. -/
def specSweepInsert (x : DLQItem) : List DLQItem → List DLQItem
  | [] => [x]
  | y :: ys =>
      if specSweepLt y x then y :: specSweepInsert x ys
      else x :: y :: ys

/-- The claimed sweep order, for comparison with `ready_order`. -/
def specSweepOrder (items : List DLQItem) (now : Rat) : List DLQItem :=
  (items.filter (fun i => i.is_ready_for_retry now)).foldr specSweepInsert []

/-- Helper: inserting into the priority-sorted list is a permutation of
consing. -/
theorem DLQ.insert_by_priority_perm (x : DLQItem) :
    ∀ l : List DLQItem, (DLQ.insert_by_priority x l).Perm (x :: l) := by
  intro l
  induction l with
  | nil => simp [DLQ.insert_by_priority]
  | cons y ys ih =>
      by_cases hc : y.priority < x.priority
      · rw [DLQ.insert_by_priority, if_pos hc]
        exact (ih.cons y).trans (List.Perm.swap x y ys)
      · rw [DLQ.insert_by_priority, if_neg hc]

/-- Helper: inserting into a priority-sorted list keeps it sorted. -/
theorem DLQ.insert_by_priority_sorted (x : DLQItem) :
    ∀ l : List DLQItem, l.Pairwise (fun u v => u.priority ≤ v.priority) →
    (DLQ.insert_by_priority x l).Pairwise (fun u v => u.priority ≤ v.priority) := by
  intro l
  induction l with
  | nil => intro _; simp [DLQ.insert_by_priority]
  | cons y ys ih =>
      intro h
      rw [List.pairwise_cons] at h
      obtain ⟨hy, hys⟩ := h
      by_cases hc : y.priority < x.priority
      · rw [DLQ.insert_by_priority, if_pos hc, List.pairwise_cons]
        refine ⟨?_, ih hys⟩
        intro z hz
        have hmem : z ∈ x :: ys := (DLQ.insert_by_priority_perm x ys).mem_iff.mp hz
        rcases List.mem_cons.mp hmem with rfl | hzys
        · exact le_of_lt hc
        · exact hy z hzys
      · rw [DLQ.insert_by_priority, if_neg hc, List.pairwise_cons]
        push_neg at hc
        refine ⟨?_, List.pairwise_cons.mpr ⟨hy, hys⟩⟩
        intro z hz
        rcases List.mem_cons.mp hz with rfl | hzys
        · exact hc
        · exact le_trans hc (hy z hzys)

/-- Helper: the sweep's stable priority sort is a permutation of its
input. -/
theorem DLQ.sort_by_priority_perm :
    ∀ l : List DLQItem, (DLQ.sort_by_priority l).Perm l := by
  intro l
  induction l with
  | nil => simp [DLQ.sort_by_priority]
  | cons x xs ih =>
      rw [DLQ.sort_by_priority]
      exact (DLQ.insert_by_priority_perm x (DLQ.sort_by_priority xs)).trans (ih.cons x)

/-- Helper: the sweep's stable priority sort sorts by priority. -/
theorem DLQ.sort_by_priority_sorted :
    ∀ l : List DLQItem,
    (DLQ.sort_by_priority l).Pairwise (fun u v => u.priority ≤ v.priority) := by
  intro l
  induction l with
  | nil => simp [DLQ.sort_by_priority]
  | cons x xs ih =>
      rw [DLQ.sort_by_priority]
      exact DLQ.insert_by_priority_sorted x _ ih


/-- Helper: an item whose retry budget is used up is never again ready for
retry, at any time. -/
theorem DLQItem.is_ready_false_of_exhausted (i : DLQItem) (n : Rat)
    (h : i.max_retries ≤ i.retry_count) : i.is_ready_for_retry n = false := by
  simp [DLQItem.is_ready_for_retry, h]

/-- Helper: one processing pass over an item whose handler fails (raises or
returns a falsy value) schedules a retry below the budget and marks FAILED
at or past it, in both cases leaving `max_retries` untouched. -/
theorem DeadLetterQueue.process_item_failure (item : DLQItem) (fr : Except Unit Bool)
    (now : Rat) (hfail : fr ≠ Except.ok true) :
    (item.retry_count < item.max_retries →
        (DeadLetterQueue.process_item item (some fr) now).status = DLQItemStatus.retrying ∧
        (DeadLetterQueue.process_item item (some fr) now).retry_count
          = item.retry_count + 1) ∧
    (item.max_retries ≤ item.retry_count →
        (DeadLetterQueue.process_item item (some fr) now).status = DLQItemStatus.failed ∧
        (DeadLetterQueue.process_item item (some fr) now).retry_count
          = item.retry_count) ∧
    (DeadLetterQueue.process_item item (some fr) now).max_retries = item.max_retries := by
  rcases fr with u | b
  · by_cases hc : item.retry_count < item.max_retries <;>
      simp [DeadLetterQueue.process_item, DLQItem.mark_processing, DLQItem.mark_retry,
        DLQItem.mark_failed, hc]
  · rcases b with _ | _
    · by_cases hc : item.retry_count < item.max_retries <;>
        simp [DeadLetterQueue.process_item, DLQItem.mark_processing, DLQItem.mark_retry,
          DLQItem.mark_failed, hc]
    · exact absurd rfl hfail

/-- C6 amended (DLQ retry ceiling): one processing pass of an item with a
failing handler keeps `retry_count ≤ max_retries`; below the ceiling the
item becomes RETRYING with the count incremented; once `retry_count` has
reached `max_retries`, `is_ready_for_retry` is false at every later time,
so the sweep never selects the item again and it stays RETRYING rather
than becoming FAILED; FAILED is assigned only when a failure is processed
with `retry_count` already at or past `max_retries` (reachable via
`retry_item` on an item with `max_retries = 0` or an item loaded from disk
in that state). -/
theorem dlq_retry_ceiling (item : DLQItem) (fr : Except Unit Bool) (now n : Rat)
    (hinv : item.retry_count ≤ item.max_retries)
    (hfail : fr ≠ Except.ok true) :
    (DeadLetterQueue.process_item item (some fr) now).retry_count ≤ item.max_retries ∧
    (item.retry_count < item.max_retries →
        (DeadLetterQueue.process_item item (some fr) now).status = DLQItemStatus.retrying ∧
        (DeadLetterQueue.process_item item (some fr) now).retry_count
          = item.retry_count + 1) ∧
    (item.max_retries ≤ item.retry_count →
        (DeadLetterQueue.process_item item (some fr) now).status = DLQItemStatus.failed) ∧
    (item.max_retries ≤ (DeadLetterQueue.process_item item (some fr) now).retry_count →
        (DeadLetterQueue.process_item item (some fr) now).is_ready_for_retry n = false) ∧
    ((DeadLetterQueue.process_item item (some fr) now).status = DLQItemStatus.failed →
        item.max_retries ≤ item.retry_count) := by
  obtain ⟨hlt, hge, hmax⟩ := DeadLetterQueue.process_item_failure item fr now hfail
  refine ⟨?_, hlt, fun h => (hge h).1, ?_, ?_⟩
  · by_cases hc : item.retry_count < item.max_retries
    · rw [(hlt hc).2]; omega
    · rw [(hge (by omega)).2]; omega
  · intro h
    exact DLQItem.is_ready_false_of_exhausted _ n (by rw [hmax]; exact h)
  · intro h
    by_cases hc : item.retry_count < item.max_retries
    · rw [(hlt hc).1] at h
      exact absurd h (by simp)
    · omega

/-- Witness for the amended C6: a pending item with budget 2 fails once. -/
theorem dlq_retry_ceiling_witness :
    (DeadLetterQueue.process_item
        { id := ("b"), operation_type := ("op"), status := DLQItemStatus.pending,
          created_at := 0, updated_at := 0, retry_count := 0, max_retries := 2 }
        (some (Except.error ())) 7).retry_count ≤ 2 ∧
    ((0 : Nat) < 2 →
        (DeadLetterQueue.process_item
          { id := ("b"), operation_type := ("op"), status := DLQItemStatus.pending,
            created_at := 0, updated_at := 0, retry_count := 0, max_retries := 2 }
          (some (Except.error ())) 7).status = DLQItemStatus.retrying ∧
        (DeadLetterQueue.process_item
          { id := ("b"), operation_type := ("op"), status := DLQItemStatus.pending,
            created_at := 0, updated_at := 0, retry_count := 0, max_retries := 2 }
          (some (Except.error ())) 7).retry_count = 0 + 1) ∧
    ((2 : Nat) ≤ 0 →
        (DeadLetterQueue.process_item
          { id := ("b"), operation_type := ("op"), status := DLQItemStatus.pending,
            created_at := 0, updated_at := 0, retry_count := 0, max_retries := 2 }
          (some (Except.error ())) 7).status = DLQItemStatus.failed) ∧
    ((2 : Nat) ≤ (DeadLetterQueue.process_item
          { id := ("b"), operation_type := ("op"), status := DLQItemStatus.pending,
            created_at := 0, updated_at := 0, retry_count := 0, max_retries := 2 }
          (some (Except.error ())) 7).retry_count →
        (DeadLetterQueue.process_item
          { id := ("b"), operation_type := ("op"), status := DLQItemStatus.pending,
            created_at := 0, updated_at := 0, retry_count := 0, max_retries := 2 }
          (some (Except.error ())) 7).is_ready_for_retry 99 = false) ∧
    ((DeadLetterQueue.process_item
          { id := ("b"), operation_type := ("op"), status := DLQItemStatus.pending,
            created_at := 0, updated_at := 0, retry_count := 0, max_retries := 2 }
          (some (Except.error ())) 7).status = DLQItemStatus.failed → (2 : Nat) ≤ 0) :=
  dlq_retry_ceiling
    { id := ("b"), operation_type := ("op"), status := DLQItemStatus.pending,
      created_at := 0, updated_at := 0, retry_count := 0, max_retries := 2 }
    (Except.error ()) 7 99 (by decide) (by simp)

/-- C6 counterexample: an item with `max_retries = 1` that uses its only
retry ends at `retry_count = max_retries` with status RETRYING — not
FAILED — `is_ready_for_retry` is false ever after, and the next sweep
selects nothing, so it is never marked FAILED. -/
theorem dlq_retry_ceiling_counterexample :
    (DeadLetterQueue.process_item
        { id := ("a"), operation_type := ("op"), status := DLQItemStatus.pending,
          created_at := 0, updated_at := 0, retry_count := 0, max_retries := 1 }
        (some (Except.error ())) 5).status = DLQItemStatus.retrying ∧
    (DeadLetterQueue.process_item
        { id := ("a"), operation_type := ("op"), status := DLQItemStatus.pending,
          created_at := 0, updated_at := 0, retry_count := 0, max_retries := 1 }
        (some (Except.error ())) 5).retry_count
      = (DeadLetterQueue.process_item
        { id := ("a"), operation_type := ("op"), status := DLQItemStatus.pending,
          created_at := 0, updated_at := 0, retry_count := 0, max_retries := 1 }
        (some (Except.error ())) 5).max_retries ∧
    (DeadLetterQueue.process_item
        { id := ("a"), operation_type := ("op"), status := DLQItemStatus.pending,
          created_at := 0, updated_at := 0, retry_count := 0, max_retries := 1 }
        (some (Except.error ())) 5).is_ready_for_retry 1000000 = false ∧
    ¬ ((DeadLetterQueue.process_item
        { id := ("a"), operation_type := ("op"), status := DLQItemStatus.pending,
          created_at := 0, updated_at := 0, retry_count := 0, max_retries := 1 }
        (some (Except.error ())) 5).status = DLQItemStatus.failed) ∧
    DeadLetterQueue.ready_order
        [DeadLetterQueue.process_item
          { id := ("a"), operation_type := ("op"), status := DLQItemStatus.pending,
            created_at := 0, updated_at := 0, retry_count := 0, max_retries := 1 }
          (some (Except.error ())) 5] 1000000 = [] := by
  refine ⟨rfl, rfl, rfl, ?_, rfl⟩
  intro h
  simp [DeadLetterQueue.process_item, DLQItem.mark_processing, DLQItem.mark_retry] at h

/-- C7 amended (DLQ sweep order): a sweep hands to `_process_item` exactly
the items whose `is_ready_for_retry` holds (status PENDING or RETRYING,
`retry_count < max_retries`, `next_retry_at` unset or elapsed), sorted by
priority ascending; equal-priority items keep the order of the `_items`
map (its insertion order), not creation-time order, because the sweep
sorts on the priority key alone and Python's sort is stable. -/
theorem dlq_sweep_order (items : List DLQItem) (now : Rat) :
    (DeadLetterQueue.ready_order items now).Perm
        (items.filter (fun i => i.is_ready_for_retry now)) ∧
    (DeadLetterQueue.ready_order items now).Pairwise
        (fun u v => u.priority ≤ v.priority) ∧
    (∀ i ∈ DeadLetterQueue.ready_order items now, i.is_ready_for_retry now = true) := by
  refine ⟨DLQ.sort_by_priority_perm _, DLQ.sort_by_priority_sorted _, ?_⟩
  intro i hi
  have hm : i ∈ items.filter (fun i => i.is_ready_for_retry now) :=
    (DLQ.sort_by_priority_perm _).mem_iff.mp hi
  exact (List.mem_filter.mp hm).2

/-- C7 counterexample: two ready items of equal priority 5, the first
created at time 10 and the second created earlier at time 5, are processed
in map order (later-created first) — the sweep order differs from the
claimed priority-then-creation-time order, which would put the earlier
creation first. -/
theorem dlq_sweep_order_counterexample :
    DeadLetterQueue.ready_order
        [{ id := ("a"), operation_type := ("op"), status := DLQItemStatus.pending,
           created_at := 10, updated_at := 0, priority := 5 },
         { id := ("b"), operation_type := ("op"), status := DLQItemStatus.pending,
           created_at := 5, updated_at := 0, priority := 5 }] 100
      = [{ id := ("a"), operation_type := ("op"), status := DLQItemStatus.pending,
           created_at := 10, updated_at := 0, priority := 5 },
         { id := ("b"), operation_type := ("op"), status := DLQItemStatus.pending,
           created_at := 5, updated_at := 0, priority := 5 }] ∧
    specSweepOrder
        [{ id := ("a"), operation_type := ("op"), status := DLQItemStatus.pending,
           created_at := 10, updated_at := 0, priority := 5 },
         { id := ("b"), operation_type := ("op"), status := DLQItemStatus.pending,
           created_at := 5, updated_at := 0, priority := 5 }] 100
      = [{ id := ("b"), operation_type := ("op"), status := DLQItemStatus.pending,
           created_at := 5, updated_at := 0, priority := 5 },
         { id := ("a"), operation_type := ("op"), status := DLQItemStatus.pending,
           created_at := 10, updated_at := 0, priority := 5 }] ∧
    DeadLetterQueue.ready_order
        [{ id := ("a"), operation_type := ("op"), status := DLQItemStatus.pending,
           created_at := 10, updated_at := 0, priority := 5 },
         { id := ("b"), operation_type := ("op"), status := DLQItemStatus.pending,
           created_at := 5, updated_at := 0, priority := 5 }] 100
      ≠ specSweepOrder
        [{ id := ("a"), operation_type := ("op"), status := DLQItemStatus.pending,
           created_at := 10, updated_at := 0, priority := 5 },
         { id := ("b"), operation_type := ("op"), status := DLQItemStatus.pending,
           created_at := 5, updated_at := 0, priority := 5 }] 100 := by
  refine ⟨?_, ?_, ?_⟩ <;> decide

/-! ## Layered state persistence (src/state_persistence.py) -/

/-- Embeds `SessionState`; the context, metadata, history and invoice maps
carry no checked property and are omitted. -/
structure SessionState where
  session_id : String
  user_id : String
  chat_id : String
  current_step : String := ("start")
  version : Nat := 1
  created_at : Rat
  updated_at : Rat
deriving DecidableEq

/-- Embeds `SessionState.update_timestamp`. -/
def SessionState.update_timestamp (s : SessionState) (now : Rat) : SessionState :=
  { s with updated_at := now, version := s.version + 1 }

/-- Python-dict-style set: update in place when the key exists, else append
(dict iteration preserves insertion order). -/
def dict_set {α : Type} : List (String × α) → String → α → List (String × α)
  | [], k, v => [(k, v)]
  | (k2, v2) :: rest, k, v =>
      if k2 = k then (k, v) :: rest else (k2, v2) :: dict_set rest k v

/-- Python-dict-style lookup. -/
def dict_get {α : Type} : List (String × α) → String → Option α
  | [], _ => none
  | (k2, v2) :: rest, k => if k2 = k then some v2 else dict_get rest k

/-- Python-dict-style delete. -/
def dict_del {α : Type} : List (String × α) → String → List (String × α)
  | [], _ => []
  | (k2, v2) :: rest, k => if k2 = k then rest else (k2, v2) :: dict_del rest k

/-- The first entry with minimal value, mirroring `min(d, key=d.get)` over
insertion order. -/
def dict_min_key : List (String × Rat) → Option (String × Rat)
  | [] => none
  | e :: rest =>
      some (match dict_min_key rest with
            | none => e
            | some e2 => if e.2 ≤ e2.2 then e else e2)

/-- Embeds `MemoryPersistenceLayer`: `_storage` and `_access_times` are kept
in one association list of key to (state, access time), as the source
maintains them in lockstep. -/
structure MemoryPersistenceLayer where
  storage : List (String × (SessionState × Rat))
  max_size : Nat := 10000
deriving DecidableEq

/-- Embeds `MemoryPersistenceLayer.save` with the wall clock explicit: when
at capacity and the key is new, the entry with the oldest access time is
evicted first (the source would raise on `min` of an empty dict, which can
occur only with `max_size = 0`; that branch skips the eviction instead). -/
def MemoryPersistenceLayer.save (layer : MemoryPersistenceLayer) (key : String)
    (state : SessionState) (now : Rat) : MemoryPersistenceLayer :=
  let layer :=
    if layer.max_size ≤ layer.storage.length ∧ dict_get layer.storage key = none then
      match dict_min_key (layer.storage.map fun e => (e.1, e.2.2)) with
      | some (oldest_key, _) => { layer with storage := dict_del layer.storage oldest_key }
      | none => layer
    else layer
  { layer with storage := dict_set layer.storage key (state, now) }

/-- Embeds `MemoryPersistenceLayer.load` with the wall clock explicit: a hit
refreshes the access time. -/
def MemoryPersistenceLayer.load (layer : MemoryPersistenceLayer) (key : String)
    (now : Rat) : Option SessionState × MemoryPersistenceLayer :=
  match dict_get layer.storage key with
  | some (state, _) =>
      (some state, { layer with storage := dict_set layer.storage key (state, now) })
  | none => (none, layer)

/-- Embeds the `MultiLayerStateManager` produced by `create_state_manager`
with the memory and file layers (both write layers, memory first).  The
file layer's on-disk records are abstracted to an association list keyed by
the session key (the source's md5 file naming is injective on keys); its
atomic temp-write-and-rename and backup snapshots have no observable effect
on `load_state` after a successful `save`. -/
structure MultiLayerStateManager where
  mem : MemoryPersistenceLayer
  file : List (String × SessionState)
  last_sync : List (String × Rat)
  sync_interval : Rat := 60
deriving DecidableEq

/-- Embeds `MultiLayerStateManager._should_sync`. -/
def MultiLayerStateManager.should_sync (mgr : MultiLayerStateManager) (key : String)
    (now : Rat) : Bool :=
  match dict_get mgr.last_sync key with
  | none => true
  | some t => decide (mgr.sync_interval ≤ now - t)

/-- Embeds `MultiLayerStateManager.save_state`: bump the version stamp,
always write the fastest (memory) layer, and propagate to the file layer
when `sync_all` is set or the per-key throttle allows. -/
def MultiLayerStateManager.save_state (mgr : MultiLayerStateManager) (state : SessionState)
    (sync_all : Bool) (now : Rat) : MultiLayerStateManager :=
  let key := state.session_id
  let state := state.update_timestamp now
  let mgr := { mgr with mem := mgr.mem.save key state now }
  if sync_all || mgr.should_sync key now then
    { mgr with
        file := dict_set mgr.file key state,
        last_sync := dict_set mgr.last_sync key now }
  else mgr

/-- Embeds `MultiLayerStateManager.load_state`: query the layers in order
and return the first hit. -/
def MultiLayerStateManager.load_state (mgr : MultiLayerStateManager) (session_id : String)
    (now : Rat) : Option SessionState :=
  match (mgr.mem.load session_id now).1 with
  | some state => some state
  | none => dict_get mgr.file session_id

/-- Helper: a `dict_set` is visible to the next `dict_get` of the same
key. -/
theorem dict_get_set {α : Type} (l : List (String × α)) (k : String) (v : α) :
    dict_get (dict_set l k v) k = some v := by
  induction l with
  | nil => simp [dict_set, dict_get]
  | cons e rest ih =>
      by_cases hk : e.1 = k
      · simp [dict_set, dict_get, hk]
      · simp [dict_set, dict_get, hk, ih]

/-- Helper: a memory-layer save is visible to the next load of the same
key, whatever eviction happened. -/
theorem MemoryPersistenceLayer.load_save (layer : MemoryPersistenceLayer) (key : String)
    (state : SessionState) (now n2 : Rat) :
    ((layer.save key state now).load key n2).1 = some state := by
  unfold MemoryPersistenceLayer.save MemoryPersistenceLayer.load
  simp only [dict_get_set]

/-- C8 (state manager read order and read-your-write): `load_state` returns
the first hit in layer order — when the memory layer misses a key the file
layer holds, the file layer's record is returned — and a `save_state`
followed by a `load_state` of the same session id always returns the
just-written (version-bumped) record, whatever the `sync_all` flag and the
sync throttle decide, because the memory layer is written synchronously and
queried first. -/
theorem state_manager_read_order (mgr : MultiLayerStateManager) (k : String)
    (r s : SessionState) (b : Bool) (now now2 : Rat)
    (hmem : (mgr.mem.load k now).1 = none)
    (hfile : dict_get mgr.file k = some r) :
    mgr.load_state k now = some r ∧
    (mgr.save_state s b now).load_state s.session_id now2
        = some (s.update_timestamp now) := by
  constructor
  · simp [MultiLayerStateManager.load_state, hmem, hfile]
  · simp only [MultiLayerStateManager.save_state]
    split <;>
      simp [MultiLayerStateManager.load_state, MemoryPersistenceLayer.load_save]

/-- Witness for C8: an empty memory layer, a file layer holding key "k",
and a save of session "s" under throttling. -/
theorem state_manager_read_order_witness :
    ({ mem := { storage := [] },
       file :=
         [(("k"),
           ({ session_id := ("k"), user_id := ("u"), chat_id := ("c"),
              created_at := 0, updated_at := 0 } : SessionState))],
       last_sync := [] } : MultiLayerStateManager).load_state ("k") 5
      = some ({ session_id := ("k"), user_id := ("u"), chat_id := ("c"),
                created_at := 0, updated_at := 0 } : SessionState) ∧
    (({ mem := { storage := [] },
        file :=
          [(("k"),
            ({ session_id := ("k"), user_id := ("u"), chat_id := ("c"),
               created_at := 0, updated_at := 0 } : SessionState))],
        last_sync := [] } : MultiLayerStateManager).save_state
        { session_id := ("s"), user_id := ("u2"), chat_id := ("c2"),
          created_at := 1, updated_at := 1 } false 5).load_state ("s") 9
      = some (SessionState.update_timestamp
          { session_id := ("s"), user_id := ("u2"), chat_id := ("c2"),
            created_at := 1, updated_at := 1 } 5) :=
  state_manager_read_order
    { mem := { storage := [] },
      file :=
        [(("k"),
          ({ session_id := ("k"), user_id := ("u"), chat_id := ("c"),
             created_at := 0, updated_at := 0 } : SessionState))],
      last_sync := [] } ("k")
    { session_id := ("k"), user_id := ("u"), chat_id := ("c"),
      created_at := 0, updated_at := 0 }
    { session_id := ("s"), user_id := ("u2"), chat_id := ("c2"),
      created_at := 1, updated_at := 1 }
    false 5 9 (by decide) (by decide)

/-! ## Error classification (src/error_classification.py) -/

/-- Embeds `ErrorSeverity`. -/
inductive ErrorSeverity where
  | critical
  | high
  | medium
  | low
  | transient
deriving DecidableEq

/-- Embeds `ErrorCategory`. -/
inductive ErrorCategory where
  | ai_model
  | document_processing
  | database
  | network
  | webhook
  | memory
  | user_input
  | file_download
  | third_party
  | unknown
deriving DecidableEq

/-- The data of a Python exception the classifier reads: the type name and
the message. -/
structure PyError where
  type_name : String
  message : String
deriving DecidableEq

/-- Embeds `ClassifiedError` (original_error and context are carried by the
caller and omitted here). -/
structure ClassifiedError where
  category : ErrorCategory
  severity : ErrorSeverity
  is_retryable : Bool
  max_retries : Nat
  retry_delay_base : Rat
  fallback_strategy : String
  user_message : String
  log_level : String
deriving DecidableEq

/-- Substring test mirroring the Python `in` operator on strings. -/
def str_contains (hay pat : String) : Bool :=
  go hay.toList
where
  go : List Char → Bool
    | [] => pat.toList.isPrefixOf []
    | l@(_ :: rest) => pat.toList.isPrefixOf l || go rest

/-- Python `str.lower()` on the character list (the source lowers only to
compare against its all-lowercase ASCII keyword lists). -/
def str_lower (s : String) : String := String.mk (s.toList.map Char.toLower)

/-- A keyword group matches if some keyword occurs in the lowered type name
or in the lowered message, as in `_determine_category` and
`_analyze_retryability`. -/
def keyword_match (type_lower msg_lower : String) (kws : List String) : Bool :=
  kws.any fun p => str_contains type_lower p || str_contains msg_lower p

/-- Embeds `ErrorClassifier._determine_category`: first matching keyword
group wins, default UNKNOWN. -/
def ErrorClassifier.determine_category (type_lower msg_lower : String) : ErrorCategory :=
  if keyword_match type_lower msg_lower [("openai"), ("anthropic"), ("ai"), ("llm"), ("model")]
    then ErrorCategory.ai_model
  else if keyword_match type_lower msg_lower [("ocr"), ("document"), ("pdf"), ("image")]
    then ErrorCategory.document_processing
  else if keyword_match type_lower msg_lower [("database"), ("db"), ("sql"), ("mongo"), ("redis")]
    then ErrorCategory.database
  else if keyword_match type_lower msg_lower [("network"), ("connection"), ("http"), ("url"), ("ssl")]
    then ErrorCategory.network
  else if keyword_match type_lower msg_lower [("webhook"), ("callback")]
    then ErrorCategory.webhook
  else if keyword_match type_lower msg_lower [("memory"), ("state"), ("session")]
    then ErrorCategory.memory
  else if keyword_match type_lower msg_lower [("user"), ("input"), ("command")]
    then ErrorCategory.user_input
  else if keyword_match type_lower msg_lower [("download"), ("file"), ("telegram")]
    then ErrorCategory.file_download
  else if keyword_match type_lower msg_lower [("cloudconvert"), ("google"), ("sheets"), ("api")]
    then ErrorCategory.third_party
  else ErrorCategory.unknown

/-- The non-retryable keyword groups of `NON_RETRYABLE_PATTERNS`, flattened
in dict order (any hit yields the same tuple). -/
def non_retryable_keywords : List String :=
  [("unauthorized"), ("forbidden"), ("401"), ("403"), ("authentication"), ("invalid key"),
   ("not found"), ("404"), ("does not exist"), ("missing"),
   ("invalid"), ("bad request"), ("validation"), ("malformed"), ("400"),
   ("quota exceeded"), ("limit exceeded"), ("insufficient"), ("out of credits"),
   ("corrupt"), ("invalid format"), ("cannot parse"), ("unsupported")]

/-- The `rate_limit` group of `RETRYABLE_PATTERNS`. -/
def rate_limit_keywords : List String :=
  [("rate limit"), ("too many requests"), ("429"), ("throttled")]

/-- The `timeout` group of `RETRYABLE_PATTERNS`. -/
def timeout_keywords : List String :=
  [("timeout"), ("timed out"), ("connection timeout"), ("read timeout")]

/-- The `transient` group of `RETRYABLE_PATTERNS`. -/
def transient_keywords : List String :=
  [("temporary"), ("transient"), ("unavailable"), ("try again"), ("503"), ("502"), ("504")]

/-- The `network` group of `RETRYABLE_PATTERNS`. -/
def network_error_keywords : List String :=
  [("connection error"), ("network error"), ("dns"), ("unreachable"), ("reset by peer")]

/-- The `service_down` group of `RETRYABLE_PATTERNS`. -/
def service_down_keywords : List String :=
  [("service unavailable"), ("maintenance"), ("overloaded")]

/-- Embeds `ErrorClassifier._analyze_retryability`: non-retryable keywords
win, then the retryable groups in dict order with their tuples, then the
per-category defaults. -/
def ErrorClassifier.analyze_retryability (type_lower msg_lower : String)
    (category : ErrorCategory) : Bool × ErrorSeverity × Nat × Rat :=
  if keyword_match type_lower msg_lower non_retryable_keywords then
    (false, ErrorSeverity.high, 0, 0)
  else if keyword_match type_lower msg_lower rate_limit_keywords then
    (true, ErrorSeverity.medium, 5, 2)
  else if keyword_match type_lower msg_lower timeout_keywords then
    (true, ErrorSeverity.medium, 3, 1)
  else if keyword_match type_lower msg_lower transient_keywords then
    (true, ErrorSeverity.transient, 3, 1/2)
  else if keyword_match type_lower msg_lower network_error_keywords then
    (true, ErrorSeverity.transient, 3, 1/2)
  else if keyword_match type_lower msg_lower service_down_keywords then
    (true, ErrorSeverity.high, 10, 5)
  else
    match category with
    | ErrorCategory.ai_model => (true, ErrorSeverity.high, 3, 1)
    | ErrorCategory.document_processing => (false, ErrorSeverity.high, 0, 0)
    | ErrorCategory.database => (true, ErrorSeverity.critical, 5, 1)
    | ErrorCategory.network => (true, ErrorSeverity.medium, 5, 1)
    | ErrorCategory.webhook => (true, ErrorSeverity.low, 3, 2)
    | ErrorCategory.memory => (false, ErrorSeverity.critical, 0, 0)
    | ErrorCategory.user_input => (false, ErrorSeverity.low, 0, 0)
    | ErrorCategory.file_download => (true, ErrorSeverity.medium, 3, 1)
    | ErrorCategory.third_party => (true, ErrorSeverity.medium, 3, 1)
    | ErrorCategory.unknown => (true, ErrorSeverity.medium, 2, 1)

/-- Embeds `ErrorClassifier._get_fallback_strategy`. -/
def ErrorClassifier.get_fallback_strategy (category : ErrorCategory)
    (is_retryable : Bool) : String :=
  match category with
  | ErrorCategory.ai_model =>
      if is_retryable then ("fallback_model") else ("static_response")
  | ErrorCategory.document_processing =>
      if is_retryable then ("manual_extraction") else ("request_new_file")
  | ErrorCategory.database =>
      if is_retryable then ("local_cache") else ("in_memory_state")
  | ErrorCategory.network =>
      if is_retryable then ("queue_for_retry") else ("degraded_mode")
  | ErrorCategory.webhook =>
      if is_retryable then ("queue_for_retry") else ("log_and_continue")
  | ErrorCategory.memory =>
      if is_retryable then ("reconstruct_state") else ("start_fresh")
  | ErrorCategory.user_input => ("clarify_request")
  | ErrorCategory.file_download =>
      if is_retryable then ("retry_download") else ("request_again")
  | ErrorCategory.third_party =>
      if is_retryable then ("alternative_service") else ("skip_operation")
  | ErrorCategory.unknown =>
      if is_retryable then ("generic_retry") else ("graceful_degradation")

/-- Embeds `ErrorClassifier._generate_user_message`: the per-category
tables keyed by retryability, with the generic defaults for categories
outside the tables. -/
def ErrorClassifier.generate_user_message (category : ErrorCategory)
    (is_retryable : Bool) : String :=
  if is_retryable then
    match category with
    | ErrorCategory.ai_model => ("I'm experiencing a brief delay. Let me try again...")
    | ErrorCategory.database => ("Just a moment, reconnecting to my systems...")
    | ErrorCategory.network => ("Connection hiccup! Retrying...")
    | ErrorCategory.file_download => ("Having trouble accessing your file. Trying again...")
    | ErrorCategory.third_party => ("Connecting to external service...")
    | ErrorCategory.document_processing => ("I'm working on it. One moment please...")
    | ErrorCategory.webhook => ("I'm working on it. One moment please...")
    | ErrorCategory.memory => ("I'm working on it. One moment please...")
    | ErrorCategory.user_input => ("I'm working on it. One moment please...")
    | ErrorCategory.unknown => ("I'm working on it. One moment please...")
  else
    match category with
    | ErrorCategory.ai_model => ("I'm having trouble processing that. Could you rephrase?")
    | ErrorCategory.document_processing =>
        ("I couldn't read that document. Could you try a clearer image or PDF?")
    | ErrorCategory.database =>
        ("I'm having trouble saving your data. Your current session is safe.")
    | ErrorCategory.user_input =>
        ("I'm not sure I understood. Could you clarify what you need?")
    | ErrorCategory.file_download =>
        ("I couldn't download your file. Please try uploading it again.")
    | ErrorCategory.third_party =>
        ("An external service is temporarily unavailable. I'll continue with what I can do.")
    | ErrorCategory.network => ("I encountered an issue, but I'm still here to help!")
    | ErrorCategory.webhook => ("I encountered an issue, but I'm still here to help!")
    | ErrorCategory.memory => ("I encountered an issue, but I'm still here to help!")
    | ErrorCategory.unknown => ("I encountered an issue, but I'm still here to help!")

/-- Embeds `ErrorClassifier._get_log_level`. -/
def ErrorClassifier.get_log_level (severity : ErrorSeverity) : String :=
  match severity with
  | ErrorSeverity.critical => ("CRITICAL")
  | ErrorSeverity.high => ("ERROR")
  | ErrorSeverity.medium => ("WARNING")
  | ErrorSeverity.low => ("INFO")
  | ErrorSeverity.transient => ("DEBUG")

/-- The default classification path of `ErrorClassifier.classify`, taken
when no custom classifier is registered for the error type. -/
def ErrorClassifier.classify_default (error : PyError) : ClassifiedError :=
  let msg_lower := str_lower error.message
  let type_lower := str_lower error.type_name
  let category := ErrorClassifier.determine_category type_lower msg_lower
  let analysis := ErrorClassifier.analyze_retryability type_lower msg_lower category
  { category := category,
    severity := analysis.2.1,
    is_retryable := analysis.1,
    max_retries := analysis.2.2.1,
    retry_delay_base := analysis.2.2.2,
    fallback_strategy := ErrorClassifier.get_fallback_strategy category analysis.1,
    user_message := ErrorClassifier.generate_user_message category analysis.1,
    log_level := ErrorClassifier.get_log_level analysis.2.1 }

/-- Embeds `ErrorClassifier.classify`: when a custom classifier is
registered for the error type (keyed here by the type name standing for the
Python type object) it is delegated to with no exception isolation — its
raised error, modelled as `Except.error`, propagates to the caller;
otherwise the default path runs and always returns a classification. -/
def ErrorClassifier.classify
    (custom : String → Option (PyError → Except Unit ClassifiedError))
    (error : PyError) : Except Unit ClassifiedError :=
  match custom error.type_name with
  | some f => f error
  | none => Except.ok (ErrorClassifier.classify_default error)

/-- C10 counterexample: a caller-registered custom classifier that raises
propagates its error out of `classify` — there is no exception isolation
around the delegation, so `classify` does not always return a
`ClassifiedError` when custom classifiers are installed. -/
theorem classify_custom_raises_counterexample :
    ErrorClassifier.classify
        (fun n => if n = ("MyError") then some (fun _ => Except.error ()) else none)
        { type_name := ("MyError"), message := ("boom") } = Except.error () := by
  simp [ErrorClassifier.classify]

/-- C10 amended: when no custom classifier is registered for the error's
type, `classify` always returns a `ClassifiedError` (the default path is
total); an error matching no category keyword and no retryability keyword
degrades to category UNKNOWN, severity MEDIUM, retryable true with budget
(2, 1s), the generic retryable user message and the `generic_retry`
fallback tag.  A registered custom classifier, however, is delegated to
with no exception isolation, so its raised error propagates (see the
counterexample). -/
theorem classifier_total_and_unknown_default (error : PyError)
    (custom : String → Option (PyError → Except Unit ClassifiedError))
    (hnone : custom error.type_name = none)
    (hcat : ErrorClassifier.determine_category (str_lower error.type_name) (str_lower error.message)
        = ErrorCategory.unknown)
    (hkw : keyword_match (str_lower error.type_name) (str_lower error.message)
          non_retryable_keywords = false ∧
        keyword_match (str_lower error.type_name) (str_lower error.message)
          rate_limit_keywords = false ∧
        keyword_match (str_lower error.type_name) (str_lower error.message)
          timeout_keywords = false ∧
        keyword_match (str_lower error.type_name) (str_lower error.message)
          transient_keywords = false ∧
        keyword_match (str_lower error.type_name) (str_lower error.message)
          network_error_keywords = false ∧
        keyword_match (str_lower error.type_name) (str_lower error.message)
          service_down_keywords = false) :
    ErrorClassifier.classify custom error
        = Except.ok (ErrorClassifier.classify_default error) ∧
    (ErrorClassifier.classify_default error).category = ErrorCategory.unknown ∧
    (ErrorClassifier.classify_default error).severity = ErrorSeverity.medium ∧
    (ErrorClassifier.classify_default error).is_retryable = true ∧
    (ErrorClassifier.classify_default error).max_retries = 2 ∧
    (ErrorClassifier.classify_default error).retry_delay_base = 1 ∧
    (ErrorClassifier.classify_default error).user_message
        = ("I'm working on it. One moment please...") ∧
    (ErrorClassifier.classify_default error).fallback_strategy = ("generic_retry") := by
  obtain ⟨h1, h2, h3, h4, h5, h6⟩ := hkw
  refine ⟨by simp [ErrorClassifier.classify, hnone], ?_, ?_, ?_, ?_, ?_, ?_, ?_⟩ <;>
    simp [ErrorClassifier.classify_default, ErrorClassifier.analyze_retryability,
      ErrorClassifier.generate_user_message, ErrorClassifier.get_fallback_strategy,
      hcat, h1, h2, h3, h4, h5, h6]

/-- Witness for the amended C10 on an error matching no keyword group at
all. -/
theorem classifier_total_and_unknown_default_witness :
    ErrorClassifier.classify (fun _ => none)
        { type_name := ("WeirdThing"), message := ("zzz") }
        = Except.ok (ErrorClassifier.classify_default
            { type_name := ("WeirdThing"), message := ("zzz") }) ∧
    (ErrorClassifier.classify_default
        { type_name := ("WeirdThing"), message := ("zzz") }).category
        = ErrorCategory.unknown ∧
    (ErrorClassifier.classify_default
        { type_name := ("WeirdThing"), message := ("zzz") }).severity
        = ErrorSeverity.medium ∧
    (ErrorClassifier.classify_default
        { type_name := ("WeirdThing"), message := ("zzz") }).is_retryable = true ∧
    (ErrorClassifier.classify_default
        { type_name := ("WeirdThing"), message := ("zzz") }).max_retries = 2 ∧
    (ErrorClassifier.classify_default
        { type_name := ("WeirdThing"), message := ("zzz") }).retry_delay_base = 1 ∧
    (ErrorClassifier.classify_default
        { type_name := ("WeirdThing"), message := ("zzz") }).user_message
        = ("I'm working on it. One moment please...") ∧
    (ErrorClassifier.classify_default
        { type_name := ("WeirdThing"), message := ("zzz") }).fallback_strategy
        = ("generic_retry") :=
  classifier_total_and_unknown_default
    { type_name := ("WeirdThing"), message := ("zzz") } (fun _ => none)
    rfl (by decide) (by decide)
